import Mathlib

/-!
# Verification of the PromptGuard-2 inference server

Shallow embedding of `docker/prompt-guard/server.py`: a FastAPI service
wrapping a pretrained sequence-classification model behind `POST /classify`,
`POST /classify/batch` and `GET /health`, with a background model loader
that flips a process-wide readiness flag.

The external collaborators (HuggingFace tokenizer/model, torch) are modelled
abstractly: a tokenizer is a function from text to token sequences, a model
is a function from token sequences to a triple of raw logits, and the
exponential used by `torch.softmax` is an abstract function `e : ℚ → ℚ`
(positive in the theorems that need it).  Machine floats are modelled as
exact rationals; Python's `round(x, 4)` (round-half-to-even at the fourth
decimal digit) is embedded exactly.  Fallible external calls (`os.makedirs`,
`from_pretrained`, `save_pretrained`, `requires_grad_`) are modelled as
`Except String _` values supplied by a `LoadEnv` record, one per call site,
so a run of the load routine is a pure function of that environment.
-/

set_option autoImplicit false

namespace PromptGuard

/-- The `LABEL_NAMES` list from server.py: the model's three output classes, by index. -/
def LABEL_NAMES : List String := ["BENIGN", "INJECTION", "JAILBREAK"]

/-- Abstract HuggingFace tokenizer: text to a token-id sequence.
The call-site arguments (`truncation=True, max_length=512, padding=True`)
are configuration of this opaque external collaborator. -/
structure Tokenizer where
  encode : String → List Nat

/-- Abstract classification model: one forward pass from a token sequence to
the three raw logits (`outputs.logits[0]`). -/
structure Model where
  logits : List Nat → ℚ × ℚ × ℚ

/-- The process-wide mutable globals of server.py:
`model`, `tokenizer`, `model_ready`, `load_error`. -/
structure ServerState where
  model : Option Model
  tokenizer : Option Tokenizer
  model_ready : Bool
  load_error : Option String

/-- Module-initialisation values of the globals:
`model = None`, `tokenizer = None`, `model_ready = False`, `load_error = None`. -/
def initState : ServerState :=
  { model := none, tokenizer := none, model_ready := false, load_error := none }

/-- Python round-half-to-even of a rational to an integer
(the tie rule of Python's built-in `round`). -/
def roundHalfToEven (q : ℚ) : ℤ :=
  if q - ⌊q⌋ < 1/2 then ⌊q⌋
  else if 1/2 < q - ⌊q⌋ then ⌊q⌋ + 1
  else if ⌊q⌋ % 2 = 0 then ⌊q⌋ else ⌊q⌋ + 1

/-- Embedding of `round(q, 4)` from server.py: round to four decimal digits. -/
def round4 (q : ℚ) : ℚ :=
  (roundHalfToEven (q * 10000) : ℚ) / 10000

/-- Embedding of `torch.softmax(logits, dim=-1)` on a three-logit vector, with the
exponential abstracted as `e`: each component is `e lᵢ / Σⱼ e lⱼ`. -/
def softmax3 (e : ℚ → ℚ) (l : ℚ × ℚ × ℚ) : ℚ × ℚ × ℚ :=
  (e l.1 / (e l.1 + e l.2.1 + e l.2.2),
   e l.2.1 / (e l.1 + e l.2.1 + e l.2.2),
   e l.2.2 / (e l.1 + e l.2.1 + e l.2.2))

/-- Component `i` of a probability triple (`probs[i].item()`). -/
def nth3 (p : ℚ × ℚ × ℚ) : ℕ → ℚ
  | 0 => p.1
  | 1 => p.2.1
  | _ => p.2.2

/-- Embedding of `probs.argmax().item()`: index of the maximal component, first index on
ties (torch returns the first occurrence of the maximum). -/
def argmax3 (p : ℚ × ℚ × ℚ) : ℕ :=
  if p.2.1 ≤ p.1 ∧ p.2.2 ≤ p.1 then 0
  else if p.2.2 ≤ p.2.1 then 1
  else 2

/-- Embedding of `fastapi.HTTPException(status_code=..., detail=...)`. -/
structure HTTPException where
  status_code : ℕ
  detail : String
  deriving DecidableEq

/-- The `ClassifyResponse` pydantic model; `scores` keeps the insertion
order of the Python dict (`benign`, `injection`, `jailbreak`). -/
structure ClassifyResponse where
  injection : Bool
  jailbreak : Bool
  label : String
  scores : List (String × ℚ)
  deriving DecidableEq

/-- The body of `classify_single` past the readiness guard: tokenize, one
forward pass, softmax, round the three scores, pick the argmax label, and
derive the two convenience booleans by string comparison with the label. -/
def singleResp (e : ℚ → ℚ) (md : Model) (tk : Tokenizer) (text : String) :
    ClassifyResponse :=
  let probs := softmax3 e (md.logits (tk.encode text))
  let label := LABEL_NAMES.getD (argmax3 probs) ""
  { injection := label == "INJECTION"
    jailbreak := label == "JAILBREAK"
    label := label
    scores := [("benign", round4 probs.1),
               ("injection", round4 probs.2.1),
               ("jailbreak", round4 probs.2.2)] }

/-- Embedding of `classify_single` from server.py.  Returns the HTTP-level outcome
together with the list of texts actually run through the model (the
instrumentation used to state "no inference is attempted"). -/
def classify_single (e : ℚ → ℚ) (s : ServerState) (text : String) :
    Except HTTPException ClassifyResponse × List String :=
  if !s.model_ready || s.model.isNone || s.tokenizer.isNone then
    (.error ⟨503, "Model not ready"⟩, [])
  else
    match s.model, s.tokenizer with
    | some md, some tk => (.ok (singleResp e md tk text), [text])
    | _, _ => (.error ⟨503, "Model not ready"⟩, [])

/-- The list comprehension `[classify_single(text) for text in texts]`:
elements are evaluated left to right and the first raised exception aborts
the whole request, keeping the side effects of the elements already run. -/
def runBatch (e : ℚ → ℚ) (s : ServerState) :
    List String → Except HTTPException (List ClassifyResponse) × List String
  | [] => (.ok [], [])
  | t :: ts =>
    match classify_single e s t with
    | (.error err, ev) => (.error err, ev)
    | (.ok r, ev) =>
      match runBatch e s ts with
      | (.error err, ev2) => (.error err, ev ++ ev2)
      | (.ok rs, ev2) => (.ok (r :: rs), ev ++ ev2)

/-- Embedding of `classify_batch` from server.py: empty input short-circuits to `[]`
before any model access; otherwise one `classify_single` per element. -/
def classify_batch (e : ℚ → ℚ) (s : ServerState) (texts : List String) :
    Except HTTPException (List ClassifyResponse) × List String :=
  if texts.isEmpty then (.ok [], [])
  else runBatch e s texts

/-- The `HealthResponse` pydantic model. -/
structure HealthResponse where
  ok : Bool
  model : String
  ready : Bool
  error : Option String
  deriving DecidableEq

/-- Embedding of `health` from server.py: reads the globals, never fails. -/
def health (modelId : String) (s : ServerState) : HealthResponse :=
  { ok := s.load_error.isNone
    model := modelId
    ready := s.model_ready
    error := s.load_error }

/-- Default of the `MODEL_ID` environment variable. -/
def DEFAULT_MODEL_ID : String := "meta-llama/Llama-Prompt-Guard-2-86M"

/-- Environment of one run of `load_model`: the outcome of every fallible
external call it can make (in source order), the cache-marker check
(`os.path.exists(config.json)`), and the `HF_TOKEN` environment variable.
`Except.error m` stands for the call raising an exception `e` with
`str(e) = m`. -/
structure LoadEnv where
  makedirsResult : Except String Unit
  cacheMarkerExists : Bool
  hfToken : Option String
  cacheTokenizer : Except String Tokenizer
  cacheModel : Except String Model
  downloadTokenizer : Except String Tokenizer
  downloadModel : Except String Model
  saveTokenizerResult : Except String Unit
  saveModelResult : Except String Unit
  requiresGradResult : Except String Unit

/-- Python truthiness of `not HF_TOKEN`: true when unset or empty. -/
def pyFalsy : Option String → Bool
  | none => true
  | some s => s.isEmpty

/-- External calls `load_model` can perform, used to state which calls a
run attempts (in particular, remote downloads). -/
inductive LoadEvent where
  | makedirs
  | checkMarker
  | loadCacheTokenizer
  | loadCacheModel
  | downloadTokenizer
  | downloadModel
  | saveTokenizer
  | saveModel
  | requiresGrad
  deriving DecidableEq

/-- Outcome of one run of `load_model`: the successive values of the global
`ServerState`, one entry per assignment to a global (the run starts from
`initState`), and the external calls attempted, in order. -/
structure LoadResult where
  states : List ServerState
  events : List LoadEvent

/-- Embedding of `load_model` from server.py, as a pure function of its environment.
Mirrors the source control flow: `os.makedirs`; cache-marker check; on a
cache hit, `from_pretrained` on the cache directory for tokenizer then
model; on a miss, fail fast when `HF_TOKEN` is falsy, else download
tokenizer and model and `save_pretrained` both back to the cache; finally
`requires_grad_(False)` and `model_ready = True`.  Any exception lands in
the `except` block, which stores `str(e)` into `load_error`. -/
def load_model (env : LoadEnv) : LoadResult :=
  match env.makedirsResult with
  | .error m => { states := [{ initState with load_error := some m }]
                  events := [.makedirs] }
  | .ok _ =>
    if env.cacheMarkerExists then
      match env.cacheTokenizer with
      | .error m =>
        { states := [{ initState with load_error := some m }]
          events := [.makedirs, .checkMarker, .loadCacheTokenizer] }
      | .ok tk =>
        let s1 := { initState with tokenizer := some tk }
        match env.cacheModel with
        | .error m =>
          { states := [s1, { s1 with load_error := some m }]
            events := [.makedirs, .checkMarker, .loadCacheTokenizer,
                       .loadCacheModel] }
        | .ok md =>
          let s2 := { s1 with model := some md }
          match env.requiresGradResult with
          | .error m =>
            { states := [s1, s2, { s2 with load_error := some m }]
              events := [.makedirs, .checkMarker, .loadCacheTokenizer,
                         .loadCacheModel, .requiresGrad] }
          | .ok _ =>
            { states := [s1, s2, { s2 with model_ready := true }]
              events := [.makedirs, .checkMarker, .loadCacheTokenizer,
                         .loadCacheModel, .requiresGrad] }
    else
      if pyFalsy env.hfToken then
        { states := [{ initState with
                         load_error := some "HF_TOKEN not set and model not cached" }]
          events := [.makedirs, .checkMarker] }
      else
        match env.downloadTokenizer with
        | .error m =>
          { states := [{ initState with load_error := some m }]
            events := [.makedirs, .checkMarker, .downloadTokenizer] }
        | .ok tk =>
          let s1 := { initState with tokenizer := some tk }
          match env.downloadModel with
          | .error m =>
            { states := [s1, { s1 with load_error := some m }]
              events := [.makedirs, .checkMarker, .downloadTokenizer,
                         .downloadModel] }
          | .ok md =>
            let s2 := { s1 with model := some md }
            match env.saveTokenizerResult with
            | .error m =>
              { states := [s1, s2, { s2 with load_error := some m }]
                events := [.makedirs, .checkMarker, .downloadTokenizer,
                           .downloadModel, .saveTokenizer] }
            | .ok _ =>
              match env.saveModelResult with
              | .error m =>
                { states := [s1, s2, { s2 with load_error := some m }]
                  events := [.makedirs, .checkMarker, .downloadTokenizer,
                             .downloadModel, .saveTokenizer, .saveModel] }
              | .ok _ =>
                match env.requiresGradResult with
                | .error m =>
                  { states := [s1, s2, { s2 with load_error := some m }]
                    events := [.makedirs, .checkMarker, .downloadTokenizer,
                               .downloadModel, .saveTokenizer, .saveModel,
                               .requiresGrad] }
                | .ok _ =>
                  { states := [s1, s2, { s2 with model_ready := true }]
                    events := [.makedirs, .checkMarker, .downloadTokenizer,
                               .downloadModel, .saveTokenizer, .saveModel,
                               .requiresGrad] }

/-- All values the global state takes during the process: the initial value
followed by the value after each write performed by `load_model` (the only
writer; the request handlers only read). -/
def fullTrace (env : LoadEnv) : List ServerState :=
  initState :: (load_model env).states

/-- Value of the globals once `load_model` has returned. -/
def finalState (env : LoadEnv) : ServerState :=
  ((load_model env).states).getLastD initState

/-- The Readiness State of the spec: the pair `{ready, error}`. -/
def readiness (s : ServerState) : Bool × Option String :=
  (s.model_ready, s.load_error)

/-- Number of positions at which a list changes value between adjacent
entries. -/
def countChanges {α : Type} [DecidableEq α] : List α → ℕ
  | [] => 0
  | [_] => 0
  | a :: b :: rest => (if a = b then 0 else 1) + countChanges (b :: rest)

/-- Error strings held in an `Except` outcome. -/
def errOf {α : Type} : Except String α → List String
  | .error m => [m]
  | .ok _ => []

/-- Every message `load_model` can ever store into `load_error` under a
given environment: the `str(e)` of its fallible calls plus the hard-coded
missing-token message. -/
def possibleMessages (env : LoadEnv) : List String :=
  errOf env.makedirsResult ++ errOf env.cacheTokenizer ++
    errOf env.cacheModel ++ errOf env.downloadTokenizer ++
    errOf env.downloadModel ++ errOf env.saveTokenizerResult ++
    errOf env.saveModelResult ++ errOf env.requiresGradResult ++
    ["HF_TOKEN not set and model not cached"]

/-! ### Concrete sample instances (used to exercise the theorems) -/

/-- A concrete positive stand-in for the softmax exponential. -/
def eW : ℚ → ℚ := fun _ => 1

/-- A concrete model: constant zero logits. -/
def mdW : Model := ⟨fun _ => (0, 0, 0)⟩

/-- A concrete tokenizer. -/
def tkW : Tokenizer := ⟨fun _ => []⟩

/-- A state in which the load has completed successfully. -/
def readyW : ServerState :=
  { model := some mdW, tokenizer := some tkW, model_ready := true,
    load_error := none }

/-- An environment in which every external call succeeds and the cache
marker is present. -/
def envCacheOk : LoadEnv :=
  { makedirsResult := .ok ()
    cacheMarkerExists := true
    hfToken := none
    cacheTokenizer := .ok tkW
    cacheModel := .ok mdW
    downloadTokenizer := .ok tkW
    downloadModel := .ok mdW
    saveTokenizerResult := .ok ()
    saveModelResult := .ok ()
    requiresGradResult := .ok () }

/-- An environment with no cache marker and no `HF_TOKEN`. -/
def envNoToken : LoadEnv :=
  { envCacheOk with cacheMarkerExists := false, hfToken := none }

/-- An environment with no cache marker, no `HF_TOKEN`, and a failing
`os.makedirs` call. -/
def envMkdirFail : LoadEnv :=
  { envNoToken with makedirsResult := .error "permission denied" }

/-! ### Helper lemmas -/

theorem argmax3_lt_three (p : ℚ × ℚ × ℚ) : argmax3 p < 3 := by
  unfold argmax3
  split_ifs <;> norm_num

theorem le_nth3_argmax3 (p : ℚ × ℚ × ℚ) :
    ∀ j < 3, nth3 p j ≤ nth3 p (argmax3 p) := by
  intro j hj
  unfold argmax3
  split_ifs with h1 h2
  · interval_cases j <;> simp only [nth3]
    · exact le_rfl
    · exact h1.1
    · exact h1.2
  · push_neg at h1
    interval_cases j <;> simp only [nth3]
    · rcases le_or_lt p.2.1 p.1 with h | h
      · have := h1 h; linarith
      · linarith
    · rfl
    · exact h2
  · push_neg at h1
    push_neg at h2
    interval_cases j <;> simp only [nth3]
    · rcases le_or_lt p.2.1 p.1 with h | h
      · have := h1 h; linarith
      · linarith
    · linarith
    · rfl

theorem nth3_lt_of_lt_argmax3 (p : ℚ × ℚ × ℚ) :
    ∀ j < argmax3 p, nth3 p j < nth3 p (argmax3 p) := by
  intro j hj
  unfold argmax3 at hj ⊢
  split_ifs at hj ⊢ with h1 h2
  · omega
  · push_neg at h1
    interval_cases j
    simp only [nth3]
    rcases le_or_lt p.2.1 p.1 with h | h
    · have := h1 h; linarith
    · exact h
  · push_neg at h1
    push_neg at h2
    interval_cases j <;> simp only [nth3]
    · rcases le_or_lt p.2.1 p.1 with h | h
      · have := h1 h; linarith
      · linarith
    · exact h2

theorem getD_LABEL_NAMES_mem : ∀ i < 3, LABEL_NAMES.getD i "" ∈ LABEL_NAMES := by
  intro i hi
  interval_cases i <;> simp [LABEL_NAMES]

theorem classify_single_not_ready (e : ℚ → ℚ) (s : ServerState) (text : String)
    (hs : s.model_ready = false) :
    classify_single e s text = (.error ⟨503, "Model not ready"⟩, []) := by
  simp [classify_single, hs]

theorem classify_single_ready (e : ℚ → ℚ) (s : ServerState) (md : Model)
    (tk : Tokenizer) (text : String) (hm : s.model = some md)
    (ht : s.tokenizer = some tk) (hr : s.model_ready = true) :
    classify_single e s text = (.ok (singleResp e md tk text), [text]) := by
  obtain ⟨om, otk, mr, le⟩ := s
  simp only at hm ht hr
  subst hm; subst ht; subst hr
  simp [classify_single]

theorem runBatch_ready (e : ℚ → ℚ) (s : ServerState) (md : Model)
    (tk : Tokenizer) (hm : s.model = some md) (ht : s.tokenizer = some tk)
    (hr : s.model_ready = true) (texts : List String) :
    runBatch e s texts = (.ok (texts.map (singleResp e md tk)), texts) := by
  induction texts with
  | nil => rfl
  | cons t ts ih =>
    simp [runBatch, classify_single_ready e s md tk t hm ht hr, ih]

/-! ### Claim theorems -/

/-- C1: whenever the readiness flag is false, `classify_single` (and
`classify_batch` on any non-empty list) fails with HTTP 503 "Model not
ready" and runs the model on no text at all. -/
theorem classify_rejects_when_not_ready (e : ℚ → ℚ) (s : ServerState)
    (text : String) (texts : List String) (hs : s.model_ready = false)
    (hne : texts ≠ []) :
    classify_single e s text = (.error ⟨503, "Model not ready"⟩, []) ∧
    classify_batch e s texts = (.error ⟨503, "Model not ready"⟩, []) := by
  refine ⟨classify_single_not_ready e s text hs, ?_⟩
  cases texts with
  | nil => exact absurd rfl hne
  | cons t ts =>
    simp [classify_batch, runBatch, classify_single_not_ready e s t hs]

/-- Witness for C1: the freshly initialised state rejects a single text and
a one-element batch with 503 and performs no inference. -/
theorem classify_rejects_when_not_ready_witness :
    classify_single eW initState "x" = (.error ⟨503, "Model not ready"⟩, []) ∧
    classify_batch eW initState ["x"] = (.error ⟨503, "Model not ready"⟩, []) :=
  classify_rejects_when_not_ready eW initState "x" ["x"] rfl (by simp)

/-- C2: once ready, `classify_single` succeeds and returns the response
built from the softmax probabilities of the logits: the label is
`LABEL_NAMES[i]` for an index `i` carrying the maximum probability with
every earlier index strictly below it (first-index tie-break), each
exposed score is the corresponding probability rounded to 4 decimal
digits, and `injection` (resp. `jailbreak`) is true iff the label is
`"INJECTION"` (resp. `"JAILBREAK"`). -/
theorem classify_softmax_argmax_rounding (e : ℚ → ℚ) (s : ServerState)
    (md : Model) (tk : Tokenizer) (text : String) (hm : s.model = some md)
    (ht : s.tokenizer = some tk) (hr : s.model_ready = true) :
    ∃ i r, classify_single e s text = (.ok r, [text]) ∧
      i < 3 ∧
      (∀ j < 3, nth3 (softmax3 e (md.logits (tk.encode text))) j ≤
        nth3 (softmax3 e (md.logits (tk.encode text))) i) ∧
      (∀ j < i, nth3 (softmax3 e (md.logits (tk.encode text))) j <
        nth3 (softmax3 e (md.logits (tk.encode text))) i) ∧
      r.label = LABEL_NAMES.getD i "" ∧
      r.scores =
        [("benign", round4 (nth3 (softmax3 e (md.logits (tk.encode text))) 0)),
         ("injection", round4 (nth3 (softmax3 e (md.logits (tk.encode text))) 1)),
         ("jailbreak", round4 (nth3 (softmax3 e (md.logits (tk.encode text))) 2))] ∧
      (r.injection = true ↔ r.label = "INJECTION") ∧
      (r.jailbreak = true ↔ r.label = "JAILBREAK") := by
  refine ⟨argmax3 (softmax3 e (md.logits (tk.encode text))),
    singleResp e md tk text,
    classify_single_ready e s md tk text hm ht hr,
    argmax3_lt_three _, le_nth3_argmax3 _, nth3_lt_of_lt_argmax3 _,
    rfl, rfl, ?_, ?_⟩ <;>
    simp [singleResp]

/-- Witness for C2: the sample ready state classifies a concrete text. -/
theorem classify_softmax_argmax_rounding_witness :
    ∃ i r, classify_single eW readyW "hi" = (.ok r, ["hi"]) ∧
      i < 3 ∧
      (∀ j < 3, nth3 (softmax3 eW (mdW.logits (tkW.encode "hi"))) j ≤
        nth3 (softmax3 eW (mdW.logits (tkW.encode "hi"))) i) ∧
      (∀ j < i, nth3 (softmax3 eW (mdW.logits (tkW.encode "hi"))) j <
        nth3 (softmax3 eW (mdW.logits (tkW.encode "hi"))) i) ∧
      r.label = LABEL_NAMES.getD i "" ∧
      r.scores =
        [("benign", round4 (nth3 (softmax3 eW (mdW.logits (tkW.encode "hi"))) 0)),
         ("injection", round4 (nth3 (softmax3 eW (mdW.logits (tkW.encode "hi"))) 1)),
         ("jailbreak", round4 (nth3 (softmax3 eW (mdW.logits (tkW.encode "hi"))) 2))] ∧
      (r.injection = true ↔ r.label = "INJECTION") ∧
      (r.jailbreak = true ↔ r.label = "JAILBREAK") :=
  classify_softmax_argmax_rounding eW readyW mdW tkW "hi" rfl rfl rfl

/-- C3: once ready, the batch handler returns exactly one result per input
text, in input order, each equal to the single-text result on the
corresponding element; the empty list returns the empty list with no
model invocation in every state, ready or not. -/
theorem classify_batch_pointwise (e : ℚ → ℚ) (s : ServerState) (md : Model)
    (tk : Tokenizer) (texts : List String) (hm : s.model = some md)
    (ht : s.tokenizer = some tk) (hr : s.model_ready = true) :
    classify_batch e s texts = (.ok (texts.map (singleResp e md tk)), texts) ∧
    (∀ t, classify_single e s t = (.ok (singleResp e md tk t), [t])) ∧
    (texts.map (singleResp e md tk)).length = texts.length ∧
    (∀ e₂ : ℚ → ℚ, ∀ s₂ : ServerState, classify_batch e₂ s₂ [] = (.ok [], [])) := by
  refine ⟨?_, fun t => classify_single_ready e s md tk t hm ht hr,
    List.length_map _ _, fun e₂ s₂ => rfl⟩
  have h := runBatch_ready e s md tk hm ht hr texts
  cases texts with
  | nil => rfl
  | cons t ts => simpa [classify_batch] using h

/-- Witness for C3: a two-element batch on the sample ready state. -/
theorem classify_batch_pointwise_witness :
    classify_batch eW readyW ["a", "b"] =
      (.ok (["a", "b"].map (singleResp eW mdW tkW)), ["a", "b"]) ∧
    (∀ t, classify_single eW readyW t = (.ok (singleResp eW mdW tkW t), [t])) ∧
    ((["a", "b"].map (singleResp eW mdW tkW)).length = (["a", "b"] : List String).length) ∧
    (∀ e₂ : ℚ → ℚ, ∀ s₂ : ServerState, classify_batch e₂ s₂ [] = (.ok [], [])) :=
  classify_batch_pointwise eW readyW mdW tkW ["a", "b"] rfl rfl rfl

theorem abs_roundHalfToEven_sub_le (q : ℚ) :
    |(roundHalfToEven q : ℚ) - q| ≤ 1/2 := by
  have h1 : (⌊q⌋ : ℚ) ≤ q := Int.floor_le q
  have h2 : q < ⌊q⌋ + 1 := Int.lt_floor_add_one q
  unfold roundHalfToEven
  split_ifs with ha hb hc <;> rw [abs_le] <;> constructor <;> push_cast <;>
    linarith

theorem abs_round4_sub_le (q : ℚ) : |round4 q - q| ≤ 1/20000 := by
  have h := abs_roundHalfToEven_sub_le (q * 10000)
  have heq : round4 q - q = ((roundHalfToEven (q * 10000) : ℚ) - q * 10000) / 10000 := by
    unfold round4; ring
  rw [heq, abs_div, abs_of_pos (show (0:ℚ) < 10000 by norm_num),
    div_le_iff₀ (show (0:ℚ) < 10000 by norm_num)]
  calc |(roundHalfToEven (q * 10000) : ℚ) - q * 10000| ≤ 1/2 := h
    _ = 1/20000 * 10000 := by norm_num

theorem softmax3_sum_eq_one (e : ℚ → ℚ) (he : ∀ x, 0 < e x) (l : ℚ × ℚ × ℚ) :
    (softmax3 e l).1 + (softmax3 e l).2.1 + (softmax3 e l).2.2 = 1 := by
  have hs : 0 < e l.1 + e l.2.1 + e l.2.2 := by
    have := he l.1; have := he l.2.1; have := he l.2.2; linarith
  unfold softmax3
  field_simp

/-- C9: once ready, for any positive softmax exponential, the three
rounded scores exposed by `classify_single` sum to 1 within 1/1000, and
the returned label is one of the three fixed class names. -/
theorem classify_scores_sum_and_label (e : ℚ → ℚ) (he : ∀ x, 0 < e x)
    (s : ServerState) (md : Model) (tk : Tokenizer) (text : String)
    (hm : s.model = some md) (ht : s.tokenizer = some tk)
    (hr : s.model_ready = true) :
    ∃ r, classify_single e s text = (.ok r, [text]) ∧
      |(r.scores.map Prod.snd).sum - 1| ≤ 1/1000 ∧
      r.label ∈ LABEL_NAMES := by
  refine ⟨singleResp e md tk text,
    classify_single_ready e s md tk text hm ht hr, ?_, ?_⟩
  · have hsum := softmax3_sum_eq_one e he (md.logits (tk.encode text))
    have h0 := abs_round4_sub_le (softmax3 e (md.logits (tk.encode text))).1
    have h1 := abs_round4_sub_le (softmax3 e (md.logits (tk.encode text))).2.1
    have h2 := abs_round4_sub_le (softmax3 e (md.logits (tk.encode text))).2.2
    rw [abs_le] at h0 h1 h2 ⊢
    simp only [singleResp, List.map_cons, List.map_nil, List.sum_cons,
      List.sum_nil]
    constructor <;> linarith [h0.1, h0.2, h1.1, h1.2, h2.1, h2.2]
  · exact getD_LABEL_NAMES_mem _ (argmax3_lt_three _)

/-- Witness for C9: the sample ready state with the constant-1 exponential. -/
theorem classify_scores_sum_and_label_witness :
    ∃ r, classify_single eW readyW "hi" = (.ok r, ["hi"]) ∧
      |(r.scores.map Prod.snd).sum - 1| ≤ 1/1000 ∧
      r.label ∈ LABEL_NAMES :=
  classify_scores_sum_and_label eW (fun _ => one_pos) readyW mdW tkW "hi"
    rfl rfl rfl

/-- C4: over one run of `load_model`, the Readiness State `{ready, error}`
starts at `(false, none)`, changes at most once along the whole write
trace (so it never reverts), and ends at either `(true, none)` or
`(false, some message)`.  `fullTrace` contains every value the globals
take: the handlers (`classify_single`, `classify_batch`, `health`) are
pure readers of `ServerState`, so the load routine is the only writer. -/
theorem load_readiness_single_transition (env : LoadEnv) :
    ((fullTrace env).map readiness).head? = some (false, none) ∧
    countChanges ((fullTrace env).map readiness) ≤ 1 ∧
    (readiness (finalState env) = (true, none) ∨
      ∃ m, readiness (finalState env) = (false, some m)) := by
  obtain ⟨mk, marker, tok, ct, cm, dt, dm, st, sm, rg⟩ := env
  cases mk with
  | error m =>
    exact ⟨rfl, by simp [fullTrace, load_model, countChanges, readiness,
      initState], .inr ⟨m, rfl⟩⟩
  | ok u =>
    cases marker with
    | true =>
      cases ct with
      | error m =>
        exact ⟨rfl, by simp [fullTrace, load_model, countChanges, readiness,
          initState], .inr ⟨m, rfl⟩⟩
      | ok ctk =>
        cases cm with
        | error m =>
          exact ⟨rfl, by simp [fullTrace, load_model, countChanges, readiness,
            initState], .inr ⟨m, rfl⟩⟩
        | ok cmd =>
          cases rg with
          | error m =>
            exact ⟨rfl, by simp [fullTrace, load_model, countChanges,
              readiness, initState], .inr ⟨m, rfl⟩⟩
          | ok v =>
            exact ⟨rfl, by simp [fullTrace, load_model, countChanges,
              readiness, initState], .inl rfl⟩
    | false =>
      cases htok : pyFalsy tok with
      | true =>
        refine ⟨rfl, ?_, .inr ⟨"HF_TOKEN not set and model not cached", ?_⟩⟩ <;>
          simp [fullTrace, finalState, load_model, countChanges, readiness,
            initState, htok]
      | false =>
        cases dt with
        | error m =>
          refine ⟨rfl, ?_, .inr ⟨m, ?_⟩⟩ <;>
            simp [fullTrace, finalState, load_model, countChanges, readiness,
              initState, htok]
        | ok dtk =>
          cases dm with
          | error m =>
            refine ⟨rfl, ?_, .inr ⟨m, ?_⟩⟩ <;>
              simp [fullTrace, finalState, load_model, countChanges,
                readiness, initState, htok]
          | ok dmd =>
            cases st with
            | error m =>
              refine ⟨rfl, ?_, .inr ⟨m, ?_⟩⟩ <;>
                simp [fullTrace, finalState, load_model, countChanges,
                  readiness, initState, htok]
            | ok v1 =>
              cases sm with
              | error m =>
                refine ⟨rfl, ?_, .inr ⟨m, ?_⟩⟩ <;>
                  simp [fullTrace, finalState, load_model, countChanges,
                    readiness, initState, htok]
              | ok v2 =>
                cases rg with
                | error m =>
                  refine ⟨rfl, ?_, .inr ⟨m, ?_⟩⟩ <;>
                    simp [fullTrace, finalState, load_model, countChanges,
                      readiness, initState, htok]
                | ok v3 =>
                  refine ⟨rfl, ?_, .inl ?_⟩ <;>
                    simp [fullTrace, finalState, load_model, countChanges,
                      readiness, initState, htok]

/-- C5 counterexample: with the cache marker absent and no credential, a
failing `os.makedirs` call (e.g. permission denied) makes `load_model`
record the makedirs exception message, not the hard-coded
`"HF_TOKEN not set and model not cached"` message the claim requires. -/
theorem load_no_token_message_counterexample :
    envMkdirFail.cacheMarkerExists = false ∧
    envMkdirFail.hfToken = none ∧
    (finalState envMkdirFail).load_error = some "permission denied" ∧
    (finalState envMkdirFail).load_error ≠
      some "HF_TOKEN not set and model not cached" ∧
    (finalState envMkdirFail).model_ready = false := by
  refine ⟨rfl, rfl, rfl, ?_, rfl⟩
  simp [finalState, envMkdirFail, envNoToken, envCacheOk, load_model]

/-- C5 (amended): if the cache marker is absent and no credential is
configured, the ready flag never becomes true at any point of the run,
and — provided the cache-directory creation call itself succeeds — the
readiness state ends at `{false, "HF_TOKEN not set and model not cached"}`. -/
theorem load_no_token_never_ready (env : LoadEnv)
    (hc : env.cacheMarkerExists = false) (htok : pyFalsy env.hfToken = true) :
    (∀ s ∈ fullTrace env, s.model_ready = false) ∧
    (env.makedirsResult = .ok () →
      (finalState env).load_error =
        some "HF_TOKEN not set and model not cached" ∧
      (finalState env).model_ready = false) := by
  obtain ⟨mk, marker, tok, ct, cm, dt, dm, st, sm, rg⟩ := env
  simp only at hc htok
  subst hc
  cases mk with
  | error m =>
    constructor
    · simp [fullTrace, load_model, initState]
    · intro h; exact absurd h (by simp)
  | ok u =>
    constructor
    · simp [fullTrace, load_model, initState, htok]
    · intro _
      constructor <;> simp [finalState, load_model, htok, initState]

/-- Witness for the amended C5: the all-calls-succeed environment with no
marker and no token ends in the hard-coded error state. -/
theorem load_no_token_never_ready_witness :
    (∀ s ∈ fullTrace envNoToken, s.model_ready = false) ∧
    (envNoToken.makedirsResult = .ok () →
      (finalState envNoToken).load_error =
        some "HF_TOKEN not set and model not cached" ∧
      (finalState envNoToken).model_ready = false) :=
  load_no_token_never_ready envNoToken rfl rfl

/-- C6: when the cache marker is present, a run of `load_model` never
attempts a remote download; every artifact load it attempts targets the
local cache (the cache-tokenizer load is attempted as soon as the
directory-creation call succeeds), and a run that reaches the ready state
has loaded both tokenizer and model from the cache. -/
theorem load_cache_hit_no_download (env : LoadEnv)
    (hc : env.cacheMarkerExists = true) :
    LoadEvent.downloadTokenizer ∉ (load_model env).events ∧
    LoadEvent.downloadModel ∉ (load_model env).events ∧
    (env.makedirsResult = .ok () →
      LoadEvent.loadCacheTokenizer ∈ (load_model env).events) ∧
    ((finalState env).model_ready = true →
      LoadEvent.loadCacheTokenizer ∈ (load_model env).events ∧
      LoadEvent.loadCacheModel ∈ (load_model env).events) := by
  obtain ⟨mk, marker, tok, ct, cm, dt, dm, st, sm, rg⟩ := env
  simp only at hc
  subst hc
  cases mk with
  | error m =>
    refine ⟨by simp [load_model], by simp [load_model], ?_, ?_⟩
    · intro h; exact absurd h (by simp)
    · intro h; simp [finalState, load_model, initState] at h
  | ok u =>
    cases ct with
    | error m =>
      refine ⟨by simp [load_model], by simp [load_model],
        fun _ => by simp [load_model], ?_⟩
      intro h; simp [finalState, load_model, initState] at h
    | ok ctk =>
      cases cm with
      | error m =>
        refine ⟨by simp [load_model], by simp [load_model],
          fun _ => by simp [load_model], ?_⟩
        intro h; simp [finalState, load_model, initState] at h
      | ok cmd =>
        cases rg with
        | error m =>
          refine ⟨by simp [load_model], by simp [load_model],
            fun _ => by simp [load_model], ?_⟩
          intro h; simp [finalState, load_model, initState] at h
        | ok v =>
          exact ⟨by simp [load_model], by simp [load_model],
            fun _ => by simp [load_model],
            fun _ => ⟨by simp [load_model], by simp [load_model]⟩⟩

/-- Witness for C6: the all-success cache-hit environment attempts no
download and loads both artifacts from the cache. -/
theorem load_cache_hit_no_download_witness :
    LoadEvent.downloadTokenizer ∉ (load_model envCacheOk).events ∧
    LoadEvent.downloadModel ∉ (load_model envCacheOk).events ∧
    (envCacheOk.makedirsResult = .ok () →
      LoadEvent.loadCacheTokenizer ∈ (load_model envCacheOk).events) ∧
    ((finalState envCacheOk).model_ready = true →
      LoadEvent.loadCacheTokenizer ∈ (load_model envCacheOk).events ∧
      LoadEvent.loadCacheModel ∈ (load_model envCacheOk).events) :=
  load_cache_hit_no_download envCacheOk rfl

/-- C7: `load_model` is a total function of its environment (no exception
escapes it), and every run ends either fully ready with no error, or not
ready with `load_error` holding a message that is the `str(e)` of one of
its fallible external calls or the hard-coded missing-token message. -/
theorem load_errors_recorded (env : LoadEnv) :
    ((finalState env).model_ready = true ∧ (finalState env).load_error = none) ∨
    ((finalState env).model_ready = false ∧
      ∃ m, (finalState env).load_error = some m ∧ m ∈ possibleMessages env) := by
  obtain ⟨mk, marker, tok, ct, cm, dt, dm, st, sm, rg⟩ := env
  cases mk with
  | error m => exact .inr ⟨rfl, m, rfl, by simp [possibleMessages, errOf]⟩
  | ok u =>
    cases marker with
    | true =>
      cases ct with
      | error m => exact .inr ⟨rfl, m, rfl, by simp [possibleMessages, errOf]⟩
      | ok ctk =>
        cases cm with
        | error m =>
          exact .inr ⟨rfl, m, rfl, by simp [possibleMessages, errOf]⟩
        | ok cmd =>
          cases rg with
          | error m =>
            exact .inr ⟨rfl, m, rfl, by simp [possibleMessages, errOf]⟩
          | ok v => exact .inl ⟨rfl, rfl⟩
    | false =>
      cases htok : pyFalsy tok with
      | true =>
        refine .inr ⟨?_, "HF_TOKEN not set and model not cached", ?_,
          by simp [possibleMessages, errOf]⟩ <;>
          simp [finalState, load_model, htok, initState]
      | false =>
        cases dt with
        | error m =>
          refine .inr ⟨?_, m, ?_, by simp [possibleMessages, errOf]⟩ <;>
            simp [finalState, load_model, htok, initState]
        | ok dtk =>
          cases dm with
          | error m =>
            refine .inr ⟨?_, m, ?_, by simp [possibleMessages, errOf]⟩ <;>
              simp [finalState, load_model, htok, initState]
          | ok dmd =>
            cases st with
            | error m =>
              refine .inr ⟨?_, m, ?_, by simp [possibleMessages, errOf]⟩ <;>
                simp [finalState, load_model, htok, initState]
            | ok v1 =>
              cases sm with
              | error m =>
                refine .inr ⟨?_, m, ?_, by simp [possibleMessages, errOf]⟩ <;>
                  simp [finalState, load_model, htok, initState]
              | ok v2 =>
                cases rg with
                | error m =>
                  refine .inr ⟨?_, m, ?_, by simp [possibleMessages, errOf]⟩ <;>
                    simp [finalState, load_model, htok, initState]
                | ok v3 =>
                  refine .inl ⟨?_, ?_⟩ <;>
                    simp [finalState, load_model, htok, initState]

theorem guard_eq_of_loaded (s : ServerState)
    (h : s.model_ready = true → s.model.isSome ∧ s.tokenizer.isSome) :
    (!s.model_ready || s.model.isNone || s.tokenizer.isNone) = !s.model_ready := by
  cases hr : s.model_ready with
  | false => simp
  | true =>
    obtain ⟨hm, ht⟩ := h hr
    obtain ⟨md, hmd⟩ := Option.isSome_iff_exists.mp hm
    obtain ⟨tk, htk⟩ := Option.isSome_iff_exists.mp ht
    simp [hr, hmd, htk]

theorem classify_error_iff_of_loaded (e : ℚ → ℚ) (s : ServerState)
    (text : String)
    (h : s.model_ready = true → s.model.isSome ∧ s.tokenizer.isSome) :
    ((classify_single e s text).1 = .error ⟨503, "Model not ready"⟩ ↔
      s.model_ready = false) := by
  cases hr : s.model_ready with
  | false => simp [classify_single_not_ready e s text hr]
  | true =>
    obtain ⟨hm, ht⟩ := h hr
    obtain ⟨md, hmd⟩ := Option.isSome_iff_exists.mp hm
    obtain ⟨tk, htk⟩ := Option.isSome_iff_exists.mp ht
    simp [classify_single_ready e s md tk text hmd htk hr]

/-- C10: in every state the globals ever take (initial state and after each
write of `load_model`), a true ready flag implies both `model` and
`tokenizer` are non-`None`; hence the three-part inference guard of
`classify_single` evaluates exactly like the ready check alone, and
`classify_single` fails with the not-ready error precisely when the ready
flag is false. -/
theorem ready_guard_equiv (env : LoadEnv) :
    ∀ s ∈ fullTrace env,
      (s.model_ready = true → s.model.isSome ∧ s.tokenizer.isSome) ∧
      ((!s.model_ready || s.model.isNone || s.tokenizer.isNone) =
        !s.model_ready) ∧
      (∀ e : ℚ → ℚ, ∀ text : String,
        ((classify_single e s text).1 = .error ⟨503, "Model not ready"⟩ ↔
          s.model_ready = false)) := by
  have hinv : ∀ s ∈ fullTrace env,
      s.model_ready = true → s.model.isSome ∧ s.tokenizer.isSome := by
    obtain ⟨mk, marker, tok, ct, cm, dt, dm, st, sm, rg⟩ := env
    cases mk with
    | error m => simp [fullTrace, load_model, initState]
    | ok u =>
      cases marker with
      | true =>
        cases ct with
        | error m => simp [fullTrace, load_model, initState]
        | ok ctk =>
          cases cm with
          | error m => simp [fullTrace, load_model, initState]
          | ok cmd =>
            cases rg with
            | error m => simp [fullTrace, load_model, initState]
            | ok v => simp [fullTrace, load_model, initState]
      | false =>
        cases htok : pyFalsy tok with
        | true => simp [fullTrace, load_model, initState, htok]
        | false =>
          cases dt with
          | error m => simp [fullTrace, load_model, initState, htok]
          | ok dtk =>
            cases dm with
            | error m => simp [fullTrace, load_model, initState, htok]
            | ok dmd =>
              cases st with
              | error m => simp [fullTrace, load_model, initState, htok]
              | ok v1 =>
                cases sm with
                | error m => simp [fullTrace, load_model, initState, htok]
                | ok v2 =>
                  cases rg with
                  | error m => simp [fullTrace, load_model, initState, htok]
                  | ok v3 => simp [fullTrace, load_model, initState, htok]
  intro s hs
  exact ⟨hinv s hs, guard_eq_of_loaded s (hinv s hs),
    fun e text => classify_error_iff_of_loaded e s text (hinv s hs)⟩

/-- Witness for C10: the initial state, reachable in the all-success
cache-hit environment, satisfies the guard equivalence. -/
theorem ready_guard_equiv_witness :
    (initState.model_ready = true →
      initState.model.isSome ∧ initState.tokenizer.isSome) ∧
    ((!initState.model_ready || initState.model.isNone ||
        initState.tokenizer.isNone) = !initState.model_ready) ∧
    (∀ e : ℚ → ℚ, ∀ text : String,
      ((classify_single e initState text).1 =
          .error ⟨503, "Model not ready"⟩ ↔
        initState.model_ready = false)) :=
  ready_guard_equiv envCacheOk initState (by simp [fullTrace])

/-- C8: `health` is a total reader of the globals: its response is exactly
`{ok := load_error is absent, model := the configured model id,
ready := the ready flag, error := the stored error}`; `ok` is true iff no
load error is recorded, and on the initial (still-loading) state `ok` is
already true while `ready` is still false. -/
theorem health_reads_state (modelId : String) (s : ServerState) :
    health modelId s =
      { ok := s.load_error.isNone
        model := modelId
        ready := s.model_ready
        error := s.load_error } ∧
    ((health modelId s).ok = true ↔ s.load_error = none) ∧
    (health modelId initState).ok = true ∧
    (health modelId initState).ready = false := by
  refine ⟨rfl, ?_, rfl, rfl⟩
  simp [health, Option.isNone_iff_eq_none]

end PromptGuard
